import Mathlib

/-!
Shallow embedding of `python_ags4/check.py` (AGS4 format checker) and proofs
about its rule engine: the error aggregator, the dictionary merger, the
line-level validators and the table-level validators.
-/

/-- Characters Python's default `str.strip` / `str.isspace` treat as whitespace. -/
def pyIsSpaceChar (c : Char) : Bool :=
  c == ' ' || c == '\t' || c == '\n' || c == '\r' || c == '\x0b' || c == '\x0c'

/-- Python `str.rstrip()`: drop trailing whitespace characters. -/
def pyRstrip (s : String) : String :=
  ⟨(s.toList.reverse.dropWhile pyIsSpaceChar).reverse⟩

/-- Python `str.strip(chars)` for a single character: drop that character from both ends. -/
def pyStripChar (c : Char) (s : String) : String :=
  ⟨((s.toList.dropWhile (· == c)).reverse.dropWhile (· == c)).reverse⟩

/-- Python `line.strip('"')`. -/
def stripQuotes (s : String) : String := pyStripChar '"' s

/-- Python `line.strip('\r\n')`: drop any of CR/LF from both ends. -/
def stripCRLF (s : String) : String :=
  ⟨((s.toList.dropWhile (fun c => c == '\r' || c == '\n')).reverse.dropWhile
      (fun c => c == '\r' || c == '\n')).reverse⟩

/-- Python `str.isspace()`: non-empty and all characters whitespace. -/
def pyIsSpace (s : String) : Bool :=
  !s.toList.isEmpty && s.toList.all pyIsSpaceChar

/-- Python `str.isascii()`. -/
def pyIsAscii (s : String) : Bool :=
  s.toList.all (fun c => c.val < 128)

/-- Python `str.isupper()` on ASCII text: at least one letter and no lowercase letter. -/
def pyIsUpper (s : String) : Bool :=
  s.toList.any Char.isAlpha && s.toList.all (fun c => !c.isLower)

/-- Whether `l` starts with `pat`. -/
def listStartsWith [BEq α] : List α → List α → Bool
  | [], _ => true
  | _ :: _, [] => false
  | p :: ps, c :: cs => p == c && listStartsWith ps cs

/-- Substring test on character lists. -/
def listContains [BEq α] (pat : List α) : List α → Bool
  | [] => listStartsWith pat []
  | c :: rest => listStartsWith pat (c :: rest) || listContains pat rest

/-- Fuel-driven splitter on an arbitrary non-empty separator, scanning left to
right exactly as Python `str.split(sep)` does. -/
def splitGenAux [BEq α] (sep : List α) : Nat → List α → List α → List (List α)
  | 0, l, acc => [(acc.reverse ++ l)]
  | _ + 1, [], acc => [acc.reverse]
  | fuel + 1, c :: rest, acc =>
      if listStartsWith sep (c :: rest) then
        acc.reverse :: splitGenAux sep fuel ((c :: rest).drop sep.length) []
      else
        splitGenAux sep fuel rest (c :: acc)

/-- Python `s.split(sep)` for a non-empty separator.  (Python raises on an
empty separator; an empty separator here returns the string whole, a case no
rule reaches with well-formed transaction data.) -/
def pySplit (sep : String) (s : String) : List String :=
  if sep.toList.isEmpty then [s]
  else (splitGenAux sep.toList (s.toList.length + 1) s.toList []).map (fun l => ⟨l⟩)

/-- Python `'pat' in s` (substring test). -/
def pyContains (s pat : String) : Bool :=
  listContains pat.toList s.toList

/-- Python `str.lower()` on ASCII text. -/
def pyToLower (s : String) : String :=
  ⟨s.toList.map Char.toLower⟩

/-- The field parse every line rule performs:
`line.rstrip().split('","')` followed by `item.strip('"')` on each field. -/
def parseFields (line : String) : List String :=
  (pySplit "\",\"" (pyRstrip line)).map stripQuotes

/-- Python `s.startswith(pre)`. -/
def pyStartsWith (s pre : String) : Bool :=
  listStartsWith pre.toList s.toList

/-- Python `s.endswith(suf)` (used for `line[-2:] != '\r\n'` and quote checks). -/
def pyEndsWith (s suf : String) : Bool :=
  listStartsWith suf.toList.reverse s.toList.reverse

/-- One entry of the error log: line number (`none` models the `'-'`
placeholder), owning group, and description. -/
structure ErrorRecord where
  line : Option Nat
  group : String
  desc : String
deriving DecidableEq

/-- The error log: a Python dict from rule name to a list of records, modelled
as an insertion-ordered association list. -/
abbrev ErrorLog := List (String × List ErrorRecord)

/-- `add_error_msg`: append a record to the list stored under `rule`, creating
the list if the key is absent (the `except KeyError` branch). -/
def add_error_msg (log : ErrorLog) (rule : String) (line : Option Nat)
    (group desc : String) : ErrorLog :=
  match log with
  | [] => [(rule, [⟨line, group, desc⟩])]
  | (r, recs) :: rest =>
      if r = rule then (r, recs ++ [⟨line, group, desc⟩]) :: rest
      else (r, recs) :: add_error_msg rest rule line group desc

/-- Run one `add_error_msg` call per record, all under the same rule. -/
def appendRule (log : ErrorLog) (rule : String) (recs : List ErrorRecord) : ErrorLog :=
  recs.foldl (fun l rec => add_error_msg l rule rec.line rec.group rec.desc) log

/-- Run a sequence of `add_error_msg` calls, one per (rule, record) pair. -/
def appendAll (log : ErrorLog) (rs : List (String × ErrorRecord)) : ErrorLog :=
  rs.foldl (fun l p => add_error_msg l p.1 p.2.line p.2.group p.2.desc) log

/-- The records currently stored under one rule (empty if the key is absent). -/
def logRecs (log : ErrorLog) (rule : String) : List ErrorRecord :=
  (log.lookup rule).getD []

/-- Total number of records in the log. -/
def logSize (log : ErrorLog) : Nat :=
  (log.map (fun p => p.2.length)).sum

/-- `rule_1`: the line is entirely ASCII. -/
def recsRule1 (line : String) (n : Nat) : List ErrorRecord :=
  if pyIsAscii line = false then
    [⟨some n, "", "Has Non-ASCII character(s)."⟩]
  else []

def rule_1 (line : String) (n : Nat) (log : ErrorLog) : ErrorLog :=
  appendRule log "Rule 1" (recsRule1 line n)

/-- `rule_2a`: the line ends with CR LF (`line[-2:] != '\r\n'`). -/
def recsRule2a (line : String) (n : Nat) : List ErrorRecord :=
  if !pyEndsWith line "\r\n" then
    [⟨some n, "", "Is not terminated by <CR> and <LF> characters."⟩]
  else []

def rule_2a (line : String) (n : Nat) (log : ErrorLog) : ErrorLog :=
  appendRule log "Rule 2a" (recsRule2a line n)

/-- `rule_2c`: a HEADING row has no duplicate fields
(`len(temp) != len(set(temp))`). -/
def recsRule2c (line : String) (n : Nat) : List ErrorRecord :=
  if pyStartsWith (stripQuotes line) "HEADING" then
    let temp := parseFields line
    if temp.length ≠ temp.dedup.length then
      [⟨some n, "", "HEADER row has duplicate fields."⟩]
    else []
  else []

def rule_2c (line : String) (n : Nat) (log : ErrorLog) : ErrorLog :=
  appendRule log "Rule 2c" (recsRule2c line n)

/-- `rule_3`: a non-blank line starts with a valid data descriptor. -/
def recsRule3 (line : String) (n : Nat) : List ErrorRecord :=
  if !pyIsSpace line then
    let temp := parseFields line
    if !(["GROUP", "HEADING", "TYPE", "UNIT", "DATA"].contains (temp.headD "")) then
      [⟨some n, "", "Does not start with a valid data descriptor."⟩]
    else []
  else []

def rule_3 (line : String) (n : Nat) (log : ErrorLog) : ErrorLog :=
  appendRule log "Rule 3" (recsRule3 line n)

/-- `rule_4a`: a GROUP row has exactly two fields. -/
def recsRule4a (line : String) (n : Nat) : List ErrorRecord :=
  if pyStartsWith line "\"GROUP\"" then
    let temp := parseFields line
    if temp.length > 2 then
      [⟨some n, temp.getD 1 "", "GROUP row has more than one field."⟩]
    else if temp.length < 2 then
      [⟨some n, "", "GROUP row is malformed."⟩]
    else []
  else []

def rule_4a (line : String) (n : Nat) (log : ErrorLog) : ErrorLog :=
  appendRule log "Rule 4a" (recsRule4a line n)

/-- `rule_4b`: UNIT/TYPE/DATA rows have the field count of the HEADING row;
with no headings seen, a per-group "Headings row missing." record is added
only if an equivalent record is not already in the log. -/
def rule4bTriggered (line : String) : Bool :=
  pyStartsWith (stripQuotes line) "UNIT" || pyStartsWith (stripQuotes line) "TYPE"
    || pyStartsWith (stripQuotes line) "DATA"

def rule_4b (line : String) (n : Nat) (group : String) (headings : List String)
    (log : ErrorLog) : ErrorLog :=
  if rule4bTriggered line then
    let temp := parseFields line
    if headings.length = 0 then
      match log.lookup "Rule 4b" with
      | none => add_error_msg log "Rule 4b" none group "Headings row missing."
      | some ds =>
          if ds.any (fun d => d.group == group && d.desc == "Headings row missing.") then log
          else add_error_msg log "Rule 4b" none group "Headings row missing."
    else if temp.length ≠ headings.length then
      add_error_msg log "Rule 4b" (some n) group "Number of fields does not match the HEADING row."
    else log
  else log

/-- `rule_5`: all fields are enclosed in double quotes; for HEADING/UNIT/TYPE
rows, splitting by `","` and by `,` must agree; a whitespace-only line that is
not a bare terminator is reported. -/
def recsRule5 (line : String) (n : Nat) : List ErrorRecord :=
  if !pyIsSpace line then
    if !pyStartsWith line "\"" || !pyEndsWith (stripCRLF line) "\"" then
      [⟨some n, "", "Contains fields that are not enclosed in double quotes."⟩]
    else if pyStartsWith (stripQuotes line) "HEADING"
        || pyStartsWith (stripQuotes line) "UNIT"
        || pyStartsWith (stripQuotes line) "TYPE" then
      if (pySplit "\",\"" line).length ≠ (pySplit "," line).length then
        [⟨some n, "", "Contains fields that are not enclosed in double quotes."⟩]
      else []
    else []
  else if line = "\r\n" ∨ line = "\n" then []
  else [⟨some n, "", "Contains only spaces."⟩]

def rule_5 (line : String) (n : Nat) (log : ErrorLog) : ErrorLog :=
  appendRule log "Rule 5" (recsRule5 line n)

/-- `rule_6`: satisfied whenever rules 2a, 4b and 5 are; performs no check. -/
def rule_6 (_line : String) (_n : Nat) (log : ErrorLog) : ErrorLog :=
  log

/-- `rule_19`: a GROUP name is four uppercase letters. -/
def recsRule19 (line : String) (n : Nat) : List ErrorRecord :=
  if pyStartsWith (stripQuotes line) "GROUP" then
    let temp := parseFields line
    if temp.length ≥ 2 then
      let g := temp.getD 1 ""
      if g.length ≠ 4 || !pyIsUpper g then
        [⟨some n, g, "GROUP name should consist of four uppercase letters."⟩]
      else []
    else []
  else []

def rule_19 (line : String) (n : Nat) (log : ErrorLog) : ErrorLog :=
  appendRule log "Rule 19" (recsRule19 line n)

/-- `rule_19a`: heading names are uppercase and at most 9 characters. -/
def recsRule19a (line : String) (n : Nat) (group : String) : List ErrorRecord :=
  if pyStartsWith (stripQuotes line) "HEADING" then
    let temp := parseFields line
    if temp.length ≥ 2 then
      (temp.drop 1).filterMap (fun item =>
        if !pyIsUpper item || item.length > 9 then
          some ⟨some n, group,
            "Heading " ++ item ++ " should be uppercase and limited to 9 character in length."⟩
        else none)
    else
      [⟨some n, group, "Headings row does not seem to have any fields."⟩]
  else []

def rule_19a (line : String) (n : Nat) (group : String) (log : ErrorLog) : ErrorLog :=
  appendRule log "Rule 19a" (recsRule19a line n group)

/-- One heading field of `rule_19b`.  The source evaluates
`len(item.split('_')[0]) != 4 or len(item.split('_')[1]) > 4` inside a
`try`: the first disjunct short-circuits, so `IndexError` (the "no
underscore" record) is only reached when the part before the first
underscore has exactly 4 characters and no second part exists. -/
def rule19bItem (n : Nat) (group item : String) : List ErrorRecord :=
  let parts := pySplit "_" item
  if (parts.headD "").length ≠ 4 then
    [⟨some n, group,
      "Heading " ++ item ++ " should consist of a 4 charater group name and a field name of upto 4 characters."⟩]
  else
    match parts[1]? with
    | some second =>
        if second.length > 4 then
          [⟨some n, group,
            "Heading " ++ item ++ " should consist of a 4 charater group name and a field name of upto 4 characters."⟩]
        else []
    | none =>
        [⟨some n, group,
          "Heading " ++ item ++ " should consist of group name and field name separated by \"_\"."⟩]

/-- `rule_19b`: heading names are `GGGG_FFFF`-shaped. -/
def recsRule19b (line : String) (n : Nat) (group : String) : List ErrorRecord :=
  if pyStartsWith (stripQuotes line) "HEADING" then
    let temp := parseFields line
    if temp.length ≥ 2 then
      (temp.drop 1).flatMap (rule19bItem n group)
    else []
  else []

def rule_19b (line : String) (n : Nat) (group : String) (log : ErrorLog) : ErrorLog :=
  appendRule log "Rule 19b" (recsRule19b line n group)

/-- One row of a DICT table: the pandas columns the checker reads. -/
structure DictEntry where
  heading : String
  dictType : String
  dictGrp : String
  dictHdng : String
  dictStat : String
  dictPgrp : String
deriving DecidableEq

/-- The four columns `drop_duplicates` keys on:
`['HEADING', 'DICT_TYPE', 'DICT_GRP', 'DICT_HDNG']`. -/
def dictKey (e : DictEntry) : String × String × String × String :=
  (e.heading, e.dictType, e.dictGrp, e.dictHdng)

/-- Keep-first deduplication with an accumulator of keys already seen. -/
def dropDupsAux {α β : Type} (key : α → β) [DecidableEq β] (seen : List β) :
    List α → List α
  | [] => []
  | x :: xs =>
      if key x ∈ seen then dropDupsAux key seen xs
      else x :: dropDupsAux key (key x :: seen) xs

/-- `drop_duplicates(keep='first')` on an arbitrary key. -/
def dropDups {α β : Type} (key : α → β) [DecidableEq β] (l : List α) : List α :=
  dropDupsAux key [] l

/-- `combine_DICT_tables`: concatenate the DICT tables of the input files
(files with no DICT table are skipped with a warning), abort with `sys.exit()`
(modelled as `none`) when nothing was collected, otherwise drop later
duplicates on `dictKey`. -/
def combine_DICT_tables (sources : List (Option (List DictEntry))) :
    Option (List DictEntry) :=
  let master := (sources.filterMap id).flatten
  if master.length = 0 then none
  else some (dropDups dictKey master)

/-- A parsed group: pandas DataFrame with named columns and index labels. -/
structure Table where
  cols : List String
  rows : List (Nat × List String)
deriving DecidableEq

abbrev Tables := List (String × Table)

abbrev Headings := List (String × List String)

/-- The value of column `c` in a row (pandas raises on a missing column; the
claims below never evaluate a missing column, so this totalises with ""). -/
def cellVal (cols : List String) (c : String) (row : List String) : String :=
  match cols.findIdx? (· == c) with
  | some i => row.getD i ""
  | none => ""

/-- `df.loc[label, c]`: label-based lookup (pandas raises on a missing label;
only reached here after `reset_index`, where labels 0 and 1 exist whenever the
source reaches them on non-degenerate tables). -/
def locCell (tb : Table) (label : Nat) (c : String) : String :=
  match tb.rows.lookup label with
  | some vals => cellVal tb.cols c vals
  | none => ""

/-- `reset_index(drop=True, inplace=True)`: relabel rows 0,1,2,…. -/
def resetIndex (tb : Table) : Table :=
  { tb with rows := (tb.rows.map (·.2)).enum }

def headingColumn (tb : Table) : List String :=
  tb.rows.map (fun r => cellVal tb.cols "HEADING" r.2)

/-- `rule_2`: every group has a DATA row.  The source first re-indexes each
table in place. -/
def recsRule2 (tables : Tables) : List ErrorRecord :=
  tables.flatMap (fun p =>
    if !((headingColumn p.2).contains "DATA") then
      [⟨none, p.1, "No DATA rows in group."⟩]
    else [])

def rule_2 (tables : Tables) (_headings : Headings) (log : ErrorLog) :
    Tables × ErrorLog :=
  let t := tables.map (fun p => (p.1, resetIndex p.2))
  (t, appendRule log "Rule 2" (recsRule2 t))

/-- `rule_2b` on one (re-indexed) group: UNIT exists and is row 0, TYPE exists
and is row 1. -/
def recsRule2bGroup (k : String) (tb : Table) : List ErrorRecord :=
  let hcol := headingColumn tb
  let unitRecs : List ErrorRecord :=
    if !(hcol.contains "UNIT") then
      [⟨none, k, "UNIT row missing from group."⟩]
    else if locCell tb 0 "HEADING" ≠ "UNIT" then
      [⟨none, k, "UNIT row is misplaced. It should be immediately below the HEADING row."⟩]
    else []
  let typeRecs : List ErrorRecord :=
    if !(hcol.contains "TYPE") then
      [⟨none, k, "TYPE row missing from group."⟩]
    else if locCell tb 1 "HEADING" ≠ "TYPE" then
      [⟨none, k, "TYPE row is misplaced. It should be immediately below the UNIT row."⟩]
    else []
  unitRecs ++ typeRecs

def rule_2b (tables : Tables) (_headings : Headings) (log : ErrorLog) :
    Tables × ErrorLog :=
  let t := tables.map (fun p => (p.1, resetIndex p.2))
  (t, appendRule log "Rule 2b" (t.flatMap (fun p => recsRule2bGroup p.1 p.2)))

/-- `dictionary.loc[dictionary.DICT_GRP == key, 'DICT_HDNG'].tolist()`. -/
def dictHdngsFor (dict : List DictEntry) (g : String) : List String :=
  (dict.filter (fun e => e.dictGrp == g)).map (·.dictHdng)

/-- The `rule_7` copy-and-remove loop: starting from a copy of the reference
list, remove (first occurrence of) every reference item not used in the file. -/
def removeAbsent (ref : List String) (hs : List String) : List String :=
  ref.foldl (fun t item => if hs.contains item then t else t.erase item) ref

/-- `rule_7`: headings appear in dictionary order.  If the actual headings are
not even a subset of the dictionary list, a "could not be checked" record is
added instead. -/
def recsRule7 (headings : Headings) (dict : List DictEntry) : List ErrorRecord :=
  headings.flatMap (fun p =>
    let key := p.1
    let ref := dictHdngsFor dict key
    if (p.2.drop 1).all (fun h => ref.contains h) then
      if removeAbsent ref p.2 ≠ p.2.drop 1 then
        [⟨none, key,
          "HEADING names in " ++ key ++ " are not in the order that they are defined in the DICT table and the standard dictionary."⟩]
      else []
    else
      [⟨none, key,
        "Order of headings could not be checked as one or more fields were not found in either the DICT table or the standard dictionary. Check error log under Rule 9."⟩])

def rule_7 (headings : Headings) (dict : List DictEntry) (log : ErrorLog) : ErrorLog :=
  appendRule log "Rule 7" (recsRule7 headings dict)

/-- `rule_9`: every actual heading is defined in the dictionary for its group. -/
def recsRule9 (headings : Headings) (dict : List DictEntry) : List ErrorRecord :=
  headings.flatMap (fun p =>
    let ref := dictHdngsFor dict p.1
    (p.2.drop 1).filterMap (fun item =>
      if !(ref.contains item) then
        some ⟨none, p.1, item ++ " not found in DICT table or the standard AGS4 dictionary."⟩
      else none))

def rule_9 (headings : Headings) (dict : List DictEntry) (log : ErrorLog) : ErrorLog :=
  appendRule log "Rule 9" (recsRule9 headings dict)

/-- `'|'.join(...)`. -/
def pipeJoin (l : List String) : String := String.intercalate "|" l

/-- KEY fields of a group:
`dictionary.loc[(DICT_GRP == g) & DICT_STAT.str.contains('key', case=False), 'DICT_HDNG']`. -/
def keyFieldsFor (dict : List DictEntry) (g : String) : List String :=
  (dict.filter (fun e => e.dictGrp == g && pyContains (pyToLower e.dictStat) "key")).map
    (·.dictHdng)

/-- REQUIRED fields of a group. -/
def requiredFieldsFor (dict : List DictEntry) (g : String) : List String :=
  (dict.filter (fun e => e.dictGrp == g && pyContains (pyToLower e.dictStat) "required")).map
    (·.dictHdng)

/-- The key tuple `rule_10a` deduplicates on: the row-descriptor column plus
every KEY heading, in that order. -/
def keyTuple (cols : List String) (key_fields : List String) (r : Nat × List String) :
    List String :=
  ("HEADING" :: key_fields).map (fun c => cellVal cols c r.2)

/-- `rule_10a` on one group: report KEY headings missing from the file, and,
when all are present, one record per row of `duplicated(keep=False)` — every
row whose key tuple occurs more than once in the table. -/
def rule10aGroupRecs (dict : List DictEntry) (g : String) (hs : List String)
    (tb : Table) : List ErrorRecord :=
  let key_fields := keyFieldsFor dict g
  let missing := key_fields.filterMap (fun h =>
    if !(hs.contains h) then
      some (⟨none, g, "Key field " ++ h ++ " not found."⟩ : ErrorRecord)
    else none)
  let dups :=
    if key_fields.all (fun h => hs.contains h) then
      (tb.rows.filter (fun r =>
          2 ≤ tb.rows.countP (fun r2 =>
            keyTuple tb.cols key_fields r2 == keyTuple tb.cols key_fields r))).map
        (fun r => (⟨none, g,
          "Duplicate key field combination: " ++ pipeJoin (keyTuple tb.cols key_fields r)⟩ :
            ErrorRecord))
    else []
  missing ++ dups

def rule_10a (tables : Tables) (headings : Headings) (dict : List DictEntry)
    (log : ErrorLog) : ErrorLog :=
  appendRule log "Rule 10a" (tables.flatMap (fun p =>
    rule10aGroupRecs dict p.1 ((headings.lookup p.1).getD []) p.2))

/-- The regex `^\s*$` of `rule_10b`: empty or whitespace-only. -/
def isBlank (s : String) : Bool := s.toList.all pyIsSpaceChar

/-- `df[heading] = df[heading].str.replace('^\s*$', '???', regex=True)`:
replace blank cells of one column, over every row of the working copy. -/
def replaceBlankCol (tb : Table) (h : String) : Table :=
  { tb with rows := tb.rows.map (fun r =>
      (r.1, match tb.cols.findIdx? (· == h) with
        | some j => r.2.set j (if isBlank (r.2.getD j "") then "???" else r.2.getD j "")
        | none => r.2)) }

/-- `rule_10b` on one group: report REQUIRED headings missing from the file;
then, on a working copy, walk the present REQUIRED headings (the source
iterates a Python set intersection; first-occurrence order is used here),
mask the DATA rows blank in that column, replace the column's blanks with
'???', and report each masked row's full (partly rewritten) field list. -/
def rule10bGroupRecs (dict : List DictEntry) (g : String) (hs : List String)
    (tb : Table) : List ErrorRecord :=
  let required := requiredFieldsFor dict g
  let missing := required.filterMap (fun h =>
    if !(hs.contains h) then
      some (⟨none, g, "Required field " ++ h ++ " not found."⟩ : ErrorRecord)
    else none)
  let toCheck := (dropDups id required).filter (fun h => hs.contains h)
  let step := fun (acc : List ErrorRecord × Table) (h : String) =>
    let flags := acc.2.rows.map (fun r =>
      cellVal acc.2.cols "HEADING" r.2 == "DATA" && isBlank (cellVal acc.2.cols h r.2))
    let df2 := replaceBlankCol acc.2 h
    let newRecs := ((df2.rows.zip flags).filter (·.2)).map (fun q =>
      (⟨none, g, "Empty REQUIRED fields: " ++ pipeJoin q.1.2⟩ : ErrorRecord))
    (acc.1 ++ newRecs, df2)
  missing ++ (toCheck.foldl step ([], tb)).1

def rule_10b (tables : Tables) (headings : Headings) (dict : List DictEntry)
    (log : ErrorLog) : Tables × ErrorLog :=
  (tables, appendRule log "Rule 10b" (tables.flatMap (fun p =>
    rule10bGroupRecs dict p.1 ((headings.lookup p.1).getD []) p.2)))

/-- The root groups `rule_10c` exempts from parent checking. -/
def rootGroups : List String := ["PROJ", "TRAN", "ABBR", "DICT", "UNIT", "TYPE", "LOCA"]

/-- `rule_10c` on one non-root group: find the parent group from the
dictionary's GROUP-type entry (IndexError → "definitions not found" record;
blank parent → "left blank" record); a failed lookup of the parent table or of
either heading list (KeyError) → "could not find parent group" record; missing
parent key fields on either side → "could not check" record; otherwise a
left-outer merge of child rows against parent rows on the parent key fields,
reporting every child row with no parent match — the source logs these
under 'Rule 10a'. -/
def rule10cGroupRecs (tables : Tables) (headings : Headings)
    (dict : List DictEntry) (g : String) (tb : Table) :
    List (String × ErrorRecord) :=
  if rootGroups.contains g then []
  else
    let groupEntries := dict.filter (fun e => e.dictType == "GROUP" && e.dictGrp == g)
    match (groupEntries.map (·.dictPgrp)).head? with
    | none =>
        [("Rule 10c", ⟨none, g,
          "Could not check parent entries since group definitions not found in standard dictionary or DICT table."⟩)]
    | some parent_group =>
        if parent_group = "" then
          [("Rule 10c", ⟨none, g, "Parent group left blank in dictionary."⟩)]
        else
          let parent_key_fields := keyFieldsFor dict parent_group
          match tables.lookup parent_group, headings.lookup g, headings.lookup parent_group with
          | some parent_df, some hsg, some hsp =>
              if parent_key_fields.all (fun h => hsg.contains h)
                  && parent_key_fields.all (fun h => hsp.contains h) then
                let orphans := tb.rows.filter (fun r =>
                  !(parent_df.rows.any (fun pr =>
                    parent_key_fields.all (fun k =>
                      cellVal tb.cols k r.2 == cellVal parent_df.cols k pr.2))))
                orphans.map (fun r => (("Rule 10a", ⟨none, g,
                  "Parent entry for line not found in " ++ parent_group ++ ": "
                    ++ pipeJoin (parent_key_fields.map (fun k => cellVal tb.cols k r.2))⟩) :
                  String × ErrorRecord))
              else
                [("Rule 10c", ⟨none, g,
                  "Could not check parent entries due to missing key fields in " ++ g
                    ++ " or " ++ parent_group ++ ". Check error log under Rule 10a."⟩)]
          | _, _, _ =>
              [("Rule 10c", ⟨none, g, "Could not find parent group " ++ parent_group ++ "."⟩)]

def rule_10c (tables : Tables) (headings : Headings) (dict : List DictEntry)
    (log : ErrorLog) : ErrorLog :=
  appendAll log (tables.flatMap (fun p => rule10cGroupRecs tables headings dict p.1 p.2))

/-- `rule_12`: already checked by `rule_10b`; performs no check. -/
def rule_12 (_tables : Tables) (_headings : Headings) (log : ErrorLog) : ErrorLog :=
  log

/-- `rule_13`: exactly one PROJ DATA row. -/
def recsRule13 (tables : Tables) : List ErrorRecord :=
  match tables.lookup "PROJ" with
  | none => [⟨none, "PROJ", "PROJ table not found."⟩]
  | some tb =>
      let c := (tb.rows.filter (fun r => cellVal tb.cols "HEADING" r.2 == "DATA")).length
      if c < 1 then
        [⟨none, "PROJ", "There should be at least one DATA row in the PROJ table."⟩]
      else if c > 1 then
        [⟨none, "PROJ", "There should not be more than one DATA row in the PROJ table."⟩]
      else []

def rule_13 (tables : Tables) (_headings : Headings) (log : ErrorLog) : ErrorLog :=
  appendRule log "Rule 13" (recsRule13 tables)

/-- `rule_14`: exactly one TRAN DATA row. -/
def recsRule14 (tables : Tables) : List ErrorRecord :=
  match tables.lookup "TRAN" with
  | none => [⟨none, "TRAN", "TRAN table not found."⟩]
  | some tb =>
      let c := (tb.rows.filter (fun r => cellVal tb.cols "HEADING" r.2 == "DATA")).length
      if c < 1 then
        [⟨none, "TRAN", "There should be at least one DATA row in the TRAN table."⟩]
      else if c > 1 then
        [⟨none, "TRAN", "There should not be more than one DATA row in the TRAN table."⟩]
      else []

def rule_14 (tables : Tables) (_headings : Headings) (log : ErrorLog) : ErrorLog :=
  appendRule log "Rule 14" (recsRule14 tables)

/-- `rule_15`: every value appearing in any UNIT row (besides '' and the
'UNIT' descriptor itself) is declared under UNIT_UNIT in the UNIT group's
DATA rows.  A missing UNIT_UNIT column raises KeyError in the source and is
passed over; the source iterates a Python set, modelled here in
first-occurrence order. -/
def recsRule15 (tables : Tables) : List ErrorRecord :=
  match tables.lookup "UNIT" with
  | none => [⟨none, "UNIT", "UNIT table not found."⟩]
  | some unitTb =>
      if unitTb.cols.contains "UNIT_UNIT" then
        let unit_list := tables.flatMap (fun p =>
          (p.2.rows.filter (fun r => cellVal p.2.cols "HEADING" r.2 == "UNIT")).flatMap (·.2))
        let codes := (unitTb.rows.filter
            (fun r => cellVal unitTb.cols "HEADING" r.2 == "DATA")).map
          (fun r => cellVal unitTb.cols "UNIT_UNIT" r.2)
        (dropDups id unit_list).filterMap (fun entry =>
          if !(codes.contains entry) && !(["", "UNIT"].contains entry) then
            some ⟨none, "-", "Unit \"" ++ entry ++ "\" not found in UNIT table."⟩
          else none)
      else []

def rule_15 (tables : Tables) (_headings : Headings) (log : ErrorLog) : ErrorLog :=
  appendRule log "Rule 15" (recsRule15 tables)

/-- `df.loc[df['HEADING'] == 'TYPE', heading].values[0]`: the first TYPE row's
value under a heading.  (A group with no TYPE row raises IndexError in the
source, uncaught; such inputs are outside the scope of the claims below.) -/
def typeRowVal (tb : Table) (h : String) : String :=
  (((tb.rows.filter (fun r => cellVal tb.cols "HEADING" r.2 == "TYPE")).head?).map
    (fun r => cellVal tb.cols h r.2)).getD ""

/-- The TRAN_RCON concatenation delimiter, when TRAN and its TRAN_RCON column
exist (the source's KeyError fallback); a TRAN table with the column but no
DATA row raises IndexError in the source, uncaught. -/
def tranConcat (tables : Tables) : Option String :=
  match tables.lookup "TRAN" with
  | none => none
  | some tr =>
      if tr.cols.contains "TRAN_RCON" then
        ((tr.rows.filter (fun r => cellVal tr.cols "HEADING" r.2 == "DATA")).head?).map
          (fun r => cellVal tr.cols "TRAN_RCON" r.2)
      else none

/-- `rule_16`: every DATA value under a PA-typed heading (split on the
TRAN_RCON delimiter when available) is declared in the ABBR group for that
heading; with no ABBR group, a single "ABBR table not found." record is
emitted as soon as the first PA-typed heading exists anywhere. -/
def recsRule16 (tables : Tables) (headings : Headings) : List ErrorRecord :=
  match tables.lookup "ABBR" with
  | some abbrTb =>
      tables.flatMap (fun p =>
        ((headings.lookup p.1).getD []).flatMap (fun h =>
          if typeRowVal p.2 h == "PA" then
            if abbrTb.cols.contains "ABBR_HDNG" && abbrTb.cols.contains "ABBR_CODE" then
              let entries0 := dropDups id
                ((p.2.rows.filter (fun r => cellVal p.2.cols "HEADING" r.2 == "DATA")).map
                  (fun r => cellVal p.2.cols h r.2))
              let entries := match tranConcat tables with
                | some c => entries0.flatMap (fun e => pySplit c e)
                | none => entries0
              let codes := (abbrTb.rows.filter
                  (fun r => cellVal abbrTb.cols "ABBR_HDNG" r.2 == h)).map
                (fun r => cellVal abbrTb.cols "ABBR_CODE" r.2)
              entries.filterMap (fun e =>
                if !(codes.contains e) && e != "" then
                  some ⟨none, p.1,
                    "\"" ++ e ++ "\" under " ++ h ++ " in " ++ p.1 ++ " not found in ABBR table."⟩
                else none)
            else []
          else []))
  | none =>
      if tables.any (fun p =>
          ((headings.lookup p.1).getD []).any (fun h => typeRowVal p.2 h == "PA")) then
        [⟨none, "ABBR", "ABBR table not found."⟩]
      else []

def rule_16 (tables : Tables) (headings : Headings) (_dict : List DictEntry)
    (log : ErrorLog) : ErrorLog :=
  appendRule log "Rule 16" (recsRule16 tables headings)

/-- `rule_17`: every value appearing in any TYPE row (besides the 'TYPE'
descriptor) is declared under TYPE_TYPE in the TYPE group's DATA rows. -/
def recsRule17 (tables : Tables) : List ErrorRecord :=
  match tables.lookup "TYPE" with
  | none => [⟨none, "TYPE", "TYPE table not found."⟩]
  | some typeTb =>
      if typeTb.cols.contains "TYPE_TYPE" then
        let type_list := tables.flatMap (fun p =>
          (p.2.rows.filter (fun r => cellVal p.2.cols "HEADING" r.2 == "TYPE")).flatMap (·.2))
        let codes := (typeTb.rows.filter
            (fun r => cellVal typeTb.cols "HEADING" r.2 == "DATA")).map
          (fun r => cellVal typeTb.cols "TYPE_TYPE" r.2)
        (dropDups id type_list).filterMap (fun entry =>
          if !(codes.contains entry) && entry != "TYPE" then
            some ⟨none, "-", "Data type \"" ++ entry ++ "\" not found in TYPE table."⟩
          else none)
      else []

def rule_17 (tables : Tables) (_headings : Headings) (_dict : List DictEntry)
    (log : ErrorLog) : ErrorLog :=
  appendRule log "Rule 17" (recsRule17 tables)

/-- `rule_18`: if rule 9 recorded violations and no DICT group exists, report
that non-standard headings need a DICT table.  This rule reads the log. -/
def rule_18 (tables : Tables) (_headings : Headings) (log : ErrorLog) : ErrorLog :=
  if (tables.lookup "DICT").isNone && (log.lookup "Rule 9").isSome then
    add_error_msg log "Rule 18" none "DICT"
      "DICT table not found. See error log under Rule 9 for a list of non-standard headings that need to be defined in a DICT table."
  else log

/-- `rule_19c`: a heading not prefixed by its own group's name must be defined
under some group in the dictionary; records are logged under 'Rule 19b'.
(The source's `except IndexError` is dead code: `split('_')[0]` always
exists.) -/
def recsRule19c (headings : Headings) (dict : List DictEntry) : List ErrorRecord :=
  headings.flatMap (fun p =>
    (p.2.drop 1).filterMap (fun heading =>
      if ((pySplit "_" heading).headD "") != p.1
          && !((dict.map (·.dictHdng)).contains heading) then
        some ⟨none, p.1,
          heading ++ " does not start with the name of this group, nor is it defined in another group."⟩
      else none))

def rule_19c (_tables : Tables) (headings : Headings) (dict : List DictEntry)
    (log : ErrorLog) : ErrorLog :=
  appendRule log "Rule 19b" (recsRule19c headings dict)

/-- Context the orchestrator passes a line rule: the raw line, its number, the
current group and the group's headings seen so far. -/
structure LineCtx where
  line : String
  num : Nat
  group : String
  headings : List String
deriving DecidableEq

/-- All line rules applied to one line, in rule order. -/
def applyLineRules (c : LineCtx) (log : ErrorLog) : ErrorLog :=
  rule_19b c.line c.num c.group
    (rule_19a c.line c.num c.group
      (rule_19 c.line c.num
        (rule_6 c.line c.num
          (rule_5 c.line c.num
            (rule_4b c.line c.num c.group c.headings
              (rule_4a c.line c.num
                (rule_3 c.line c.num
                  (rule_2c c.line c.num
                    (rule_2a c.line c.num
                      (rule_1 c.line c.num log))))))))))

def runLineRules (cs : List LineCtx) (log : ErrorLog) : ErrorLog :=
  cs.foldl (fun l c => applyLineRules c l) log

/-- All group rules in rule order, threading the tables state through the
re-indexing rules. -/
def runGroupRules (tables : Tables) (headings : Headings) (dict : List DictEntry)
    (log : ErrorLog) : ErrorLog :=
  let s1 := rule_2 tables headings log
  let s2 := rule_2b s1.1 headings s1.2
  let l3 := rule_7 headings dict s2.2
  let l4 := rule_9 headings dict l3
  let l5 := rule_10a s2.1 headings dict l4
  let s6 := rule_10b s2.1 headings dict l5
  let l7 := rule_10c s6.1 headings dict s6.2
  let l8 := rule_12 s6.1 headings l7
  let l9 := rule_13 s6.1 headings l8
  let l10 := rule_14 s6.1 headings l9
  let l11 := rule_15 s6.1 headings l10
  let l12 := rule_16 s6.1 headings dict l11
  let l13 := rule_17 s6.1 headings dict l12
  let l14 := rule_18 s6.1 headings l13
  rule_19c s6.1 headings dict l14

/-- Modelled from the spec: the orchestrator (the check-run entry point is not
part of the rule-engine sources).  Per the spec it creates one fresh ErrorLog
per run, feeds every raw line through the line validators, merges the
dictionary sources before any table rule, halts the run (returning `none`)
when the merge aborts, and otherwise threads the same log through every table
validator in the fixed rule order. -/
def checkRun (sources : List (Option (List DictEntry))) (tables : Tables)
    (headings : Headings) (lineCtxs : List LineCtx) : Option ErrorLog :=
  match combine_DICT_tables sources with
  | none => none
  | some dict => some (runGroupRules tables headings dict (runLineRules lineCtxs []))

/-- One application of the full rule set from a fresh, empty ErrorLog. -/
def runRuleSet (tables : Tables) (headings : Headings) (dict : List DictEntry)
    (lineCtxs : List LineCtx) : ErrorLog :=
  runGroupRules tables headings dict (runLineRules lineCtxs [])

/-- Concrete input for `rule_10c`: a GEOL child group whose dictionary parent
is LOCA, with LOCA_ID the parent key field. -/
def c1Dict : List DictEntry :=
  [⟨"DATA", "GROUP", "GEOL", "", "", "LOCA"⟩,
   ⟨"DATA", "HEADING", "LOCA", "LOCA_ID", "KEY", ""⟩]

def c1LOCA : Table :=
  ⟨["HEADING", "LOCA_ID"],
   [(0, ["UNIT", ""]), (1, ["TYPE", "X"]), (2, ["DATA", "BH01"])]⟩

def c1GEOL : Table :=
  ⟨["HEADING", "LOCA_ID", "GEOL_DESC"],
   [(0, ["UNIT", "m", "-"]), (1, ["TYPE", "X", "X"]),
    (2, ["DATA", "BH01", "clay"]), (3, ["DATA", "BH02", "sand"])]⟩

def c1Tables : Tables := [("LOCA", c1LOCA), ("GEOL", c1GEOL)]

def c1Headings : Headings :=
  [("LOCA", ["HEADING", "LOCA_ID"]), ("GEOL", ["HEADING", "LOCA_ID", "GEOL_DESC"])]

/-- Two dictionary sources defining the same (group, heading) pair with
different DICT_TYPE values: the merge key differs, so both survive. -/
def c2SourceA : List DictEntry := [⟨"DATA", "HEADING", "LOCA", "LOCA_ID", "KEY", ""⟩]

def c2SourceB : List DictEntry := [⟨"DATA", "GROUP", "LOCA", "LOCA_ID", "REQUIRED", ""⟩]

/-- Scenario E input: both sources define (LOCA, LOCA_ID) with the same
row-descriptor and DICT_TYPE but different status tags. -/
def c2ScenarioEB : List DictEntry := [⟨"DATA", "HEADING", "LOCA", "LOCA_ID", "REQUIRED", ""⟩]

/-- A group holding two identical UNIT rows and one DATA row: `duplicated`
flags the two UNIT rows although no DATA row shares a key tuple. -/
def c3Table : Table :=
  ⟨["HEADING", "LOCA_ID"],
   [(0, ["UNIT", "m"]), (1, ["UNIT", "m"]), (2, ["DATA", "BH01"])]⟩

def c3Tables : Tables := [("LOCA", c3Table)]

def c3Headings : Headings := [("LOCA", ["HEADING", "LOCA_ID"])]

def c3Dict : List DictEntry := [⟨"DATA", "HEADING", "LOCA", "LOCA_ID", "KEY", ""⟩]

/-- A parsed table whose index labels do not start from zero (as produced by
upstream slicing), exposing the in-place `reset_index`. -/
def c8Table : Table :=
  ⟨["HEADING", "LOCA_ID"],
   [(5, ["UNIT", ""]), (6, ["TYPE", "X"]), (7, ["DATA", "BH01"])]⟩

def c8Tables : Tables := [("LOCA", c8Table)]

/-- The number of "Headings row missing." records `rule_4b` has logged for one
group. -/
def headingsMissingCount (g : String) (log : ErrorLog) : Nat :=
  (logRecs log "Rule 4b").countP (fun d => d.group == g && d.desc == "Headings row missing.")

/-- Log extension: everything present stays present, unmodified, in order. -/
def LogLE (a b : ErrorLog) : Prop :=
  ∀ r, logRecs a r <+: logRecs b r

/-- Log extension together with monotone record count. -/
def LogExt (a b : ErrorLog) : Prop :=
  LogLE a b ∧ logSize a ≤ logSize b

example : rule_10c c1Tables c1Headings c1Dict [] =
    [("Rule 10a",
      [⟨none, "GEOL", "Parent entry for line not found in LOCA: m"⟩,
       ⟨none, "GEOL", "Parent entry for line not found in LOCA: BH02"⟩])] := by decide

example : combine_DICT_tables [some c2SourceA, some c2SourceB] =
    some [⟨"DATA", "HEADING", "LOCA", "LOCA_ID", "KEY", ""⟩,
          ⟨"DATA", "GROUP", "LOCA", "LOCA_ID", "REQUIRED", ""⟩] := by decide

example : combine_DICT_tables [some c2SourceA, some c2ScenarioEB] =
    some [⟨"DATA", "HEADING", "LOCA", "LOCA_ID", "KEY", ""⟩] := by decide

example : rule_10a c3Tables c3Headings c3Dict [] =
    [("Rule 10a",
      [⟨none, "LOCA", "Duplicate key field combination: UNIT|m"⟩,
       ⟨none, "LOCA", "Duplicate key field combination: UNIT|m"⟩])] := by decide

example : rule_19b "\"HEADING\",\"ABCD_EF_GH\"\r\n" 1 "LOCA" [] = [] := by decide

example : rule_19b "\"HEADING\",\"ABC\"\r\n" 1 "LOCA" [] =
    [("Rule 19b", [⟨some 1, "LOCA",
      "Heading ABC should consist of a 4 charater group name and a field name of upto 4 characters."⟩])] := by decide

example : (rule_2b c8Tables [] []).1 ≠ c8Tables := by decide

example : (rule_2b c8Tables [] []).1 =
    [("LOCA", ⟨["HEADING", "LOCA_ID"],
      [(0, ["UNIT", ""]), (1, ["TYPE", "X"]), (2, ["DATA", "BH01"])]⟩)] := by decide

example : (rule_2b c8Tables [] []).2 = [] := by decide

/-! ### Error-aggregator lemmas -/

theorem logRecs_add_self (log : ErrorLog) (ru : String) (ln : Option Nat)
    (g d : String) :
    logRecs (add_error_msg log ru ln g d) ru = logRecs log ru ++ [⟨ln, g, d⟩] := by
  induction log with
  | nil => simp [add_error_msg, logRecs, List.lookup]
  | cons p rest ih =>
      obtain ⟨r, recs⟩ := p
      by_cases h : r = ru
      · subst h
        simp [add_error_msg, logRecs, List.lookup]
      · have hb : (ru == r) = false := beq_eq_false_iff_ne.mpr (Ne.symm h)
        simp only [add_error_msg, if_neg h]
        simpa [logRecs, List.lookup, hb] using ih

theorem logRecs_add_other (log : ErrorLog) (ru : String) (ln : Option Nat)
    (g d : String) (r' : String) (h : r' ≠ ru) :
    logRecs (add_error_msg log ru ln g d) r' = logRecs log r' := by
  have hb : (r' == ru) = false := beq_eq_false_iff_ne.mpr h
  induction log with
  | nil => simp [add_error_msg, logRecs, List.lookup, hb]
  | cons p rest ih =>
      obtain ⟨r, recs⟩ := p
      by_cases hr : r = ru
      · subst hr
        simp [add_error_msg, logRecs, List.lookup, hb]
      · simp only [add_error_msg, if_neg hr]
        by_cases hr' : r' = r
        · subst hr'
          simp [logRecs, List.lookup]
        · have hb' : (r' == r) = false := beq_eq_false_iff_ne.mpr hr'
          simpa [logRecs, List.lookup, hb'] using ih

theorem logSize_add (log : ErrorLog) (ru : String) (ln : Option Nat) (g d : String) :
    logSize (add_error_msg log ru ln g d) = logSize log + 1 := by
  induction log with
  | nil => simp [add_error_msg, logSize]
  | cons p rest ih =>
      obtain ⟨r, recs⟩ := p
      by_cases h : r = ru
      · subst h
        simp [add_error_msg, logSize]
        omega
      · simp only [add_error_msg, if_neg h]
        simp [logSize] at ih ⊢
        omega

theorem appendRule_cons (log : ErrorLog) (ru : String) (rec : ErrorRecord)
    (rest : List ErrorRecord) :
    appendRule log ru (rec :: rest) =
      appendRule (add_error_msg log ru rec.line rec.group rec.desc) ru rest := rfl

theorem logRecs_appendRule_self (recs : List ErrorRecord) (log : ErrorLog) (ru : String) :
    logRecs (appendRule log ru recs) ru = logRecs log ru ++ recs := by
  induction recs generalizing log with
  | nil => simp [appendRule]
  | cons rec rest ih =>
      rw [appendRule_cons, ih, logRecs_add_self]
      simp

theorem logRecs_appendRule_other (recs : List ErrorRecord) (log : ErrorLog)
    (ru r' : String) (h : r' ≠ ru) :
    logRecs (appendRule log ru recs) r' = logRecs log r' := by
  induction recs generalizing log with
  | nil => simp [appendRule]
  | cons rec rest ih =>
      rw [appendRule_cons, ih, logRecs_add_other _ _ _ _ _ _ h]

theorem logSize_appendRule (recs : List ErrorRecord) (log : ErrorLog) (ru : String) :
    logSize (appendRule log ru recs) = logSize log + recs.length := by
  induction recs generalizing log with
  | nil => simp [appendRule]
  | cons rec rest ih =>
      rw [appendRule_cons, ih, logSize_add]
      simp
      omega

theorem appendAll_cons (log : ErrorLog) (p : String × ErrorRecord)
    (rest : List (String × ErrorRecord)) :
    appendAll log (p :: rest) =
      appendAll (add_error_msg log p.1 p.2.line p.2.group p.2.desc) rest := rfl

theorem logRecs_appendAll (rs : List (String × ErrorRecord)) (log : ErrorLog)
    (r : String) :
    logRecs (appendAll log rs) r =
      logRecs log r ++ (rs.filter (fun p => p.1 == r)).map (·.2) := by
  induction rs generalizing log with
  | nil => simp [appendAll]
  | cons p rest ih =>
      rw [appendAll_cons, ih]
      by_cases h : p.1 = r
      · subst h
        rw [logRecs_add_self]
        simp
      · have hb : (p.1 == r) = false := beq_eq_false_iff_ne.mpr h
        rw [logRecs_add_other _ _ _ _ _ _ (Ne.symm h)]
        simp [hb]

theorem logSize_appendAll (rs : List (String × ErrorRecord)) (log : ErrorLog) :
    logSize (appendAll log rs) = logSize log + rs.length := by
  induction rs generalizing log with
  | nil => simp [appendAll]
  | cons p rest ih =>
      rw [appendAll_cons, ih, logSize_add]
      simp
      omega

theorem logExt_refl (log : ErrorLog) : LogExt log log :=
  ⟨fun _ => List.prefix_refl _, le_refl _⟩

theorem logExt_trans {a b c : ErrorLog} (h1 : LogExt a b) (h2 : LogExt b c) :
    LogExt a c :=
  ⟨fun r => (h1.1 r).trans (h2.1 r), le_trans h1.2 h2.2⟩

theorem logExt_add (log : ErrorLog) (ru : String) (ln : Option Nat) (g d : String) :
    LogExt log (add_error_msg log ru ln g d) := by
  constructor
  · intro r
    by_cases h : r = ru
    · subst h
      rw [logRecs_add_self]
      exact List.prefix_append _ _
    · rw [logRecs_add_other _ _ _ _ _ _ h]
  · rw [logSize_add]
    omega

theorem logExt_appendRule (log : ErrorLog) (ru : String) (recs : List ErrorRecord) :
    LogExt log (appendRule log ru recs) := by
  constructor
  · intro r
    by_cases h : r = ru
    · subst h
      rw [logRecs_appendRule_self]
      exact List.prefix_append _ _
    · rw [logRecs_appendRule_other _ _ _ _ h]
  · rw [logSize_appendRule]
    omega

theorem logExt_appendAll (log : ErrorLog) (rs : List (String × ErrorRecord)) :
    LogExt log (appendAll log rs) := by
  constructor
  · intro r
    rw [logRecs_appendAll]
    exact List.prefix_append _ _
  · rw [logSize_appendAll]
    omega

theorem logExt_rule_4b (line : String) (n : Nat) (group : String)
    (headings : List String) (log : ErrorLog) :
    LogExt log (rule_4b line n group headings log) := by
  unfold rule_4b
  dsimp only
  split
  · split
    · split
      · exact logExt_add _ _ _ _ _
      · split
        · exact logExt_refl _
        · exact logExt_add _ _ _ _ _
    · split
      · exact logExt_add _ _ _ _ _
      · exact logExt_refl _
  · exact logExt_refl _

theorem logExt_rule_18 (tables : Tables) (headings : Headings) (log : ErrorLog) :
    LogExt log (rule_18 tables headings log) := by
  unfold rule_18
  split
  · exact logExt_add _ _ _ _ _
  · exact logExt_refl _

/-! ### The `rule_7` remove-loop computes a filter -/

theorem eraseFold_cons (hs : List String) (l : List String) (x : String)
    (hx : hs.contains x = true) (t : List String) :
    l.foldl (fun t item => if hs.contains item then t else t.erase item) (x :: t) =
      x :: l.foldl (fun t item => if hs.contains item then t else t.erase item) t := by
  induction l generalizing t with
  | nil => rfl
  | cons y ys ih =>
      by_cases hy : hs.contains y = true
      · simp only [List.foldl_cons, if_pos hy]
        exact ih t
      · have hxy : x ≠ y := fun e => hy (e ▸ hx)
        simp only [List.foldl_cons, if_neg hy]
        rw [List.erase_cons_tail]
        · exact ih (t.erase y)
        · simp [beq_iff_eq, hxy]

theorem removeAbsent_eq_filter (hs : List String) (ref : List String) :
    removeAbsent ref hs = ref.filter (fun h => hs.contains h) := by
  induction ref with
  | nil => rfl
  | cons x rest ih =>
      unfold removeAbsent
      by_cases hx : hs.contains x = true
      · have hm : x ∈ hs := by simpa using hx
        simp only [List.foldl_cons, if_pos hx]
        rw [eraseFold_cons hs rest x hx rest]
        unfold removeAbsent at ih
        rw [ih]
        simp [List.filter_cons, hm]
      · have hm : x ∉ hs := by simpa using hx
        simp only [List.foldl_cons, if_neg hx]
        rw [List.erase_cons_head]
        unfold removeAbsent at ih
        rw [ih]
        simp [List.filter_cons, hm]

/-! ### `duplicated(keep=False)` counts are multiplicities -/

theorem countP_eq_count_map {α β : Type} [BEq β] (f : α → β) (l : List α)
    (b : β) :
    l.countP (fun x => f x == b) = (l.map f).count b := by
  rw [List.count, List.countP_map]
  rfl

/-! ### Keep-first deduplication lemmas -/

theorem mem_dropDupsAux {α β : Type} (key : α → β) [DecidableEq β] :
    ∀ (l : List α) (seen : List β) (a : α), a ∈ dropDupsAux key seen l →
      a ∈ l ∧ key a ∉ seen := by
  intro l
  induction l with
  | nil => intro seen a h; simp [dropDupsAux] at h
  | cons x xs ih =>
      intro seen a h
      unfold dropDupsAux at h
      by_cases hx : key x ∈ seen
      · rw [if_pos hx] at h
        obtain ⟨h1, h2⟩ := ih seen a h
        exact ⟨List.mem_cons_of_mem _ h1, h2⟩
      · rw [if_neg hx] at h
        rcases List.mem_cons.mp h with h1 | h1
        · subst h1
          exact ⟨List.mem_cons_self _ _, hx⟩
        · obtain ⟨h1, h2⟩ := ih _ a h1
          refine ⟨List.mem_cons_of_mem _ h1, fun hc => h2 ?_⟩
          exact List.mem_cons_of_mem _ hc

theorem pairwise_dropDupsAux {α β : Type} (key : α → β) [DecidableEq β] :
    ∀ (l : List α) (seen : List β),
      (dropDupsAux key seen l).Pairwise (fun a b => key a ≠ key b) := by
  intro l
  induction l with
  | nil => intro seen; simp [dropDupsAux]
  | cons x xs ih =>
      intro seen
      unfold dropDupsAux
      by_cases hx : key x ∈ seen
      · rw [if_pos hx]; exact ih seen
      · rw [if_neg hx]
        refine List.Pairwise.cons ?_ (ih _)
        intro b hb
        have := (mem_dropDupsAux key xs _ b hb).2
        intro he
        exact this (he ▸ List.mem_cons_self _ _)

theorem find?_mem_dropDupsAux {α β : Type} (key : α → β) [DecidableEq β] :
    ∀ (l : List α) (seen : List β) (k : β) (x : α),
      l.find? (fun a => decide (key a = k)) = some x → k ∉ seen →
      x ∈ dropDupsAux key seen l := by
  intro l
  induction l with
  | nil => intro seen k x h _; simp [List.find?] at h
  | cons y ys ih =>
      intro seen k x h hk
      by_cases hy : key y = k
      · have : (y :: ys).find? (fun a => decide (key a = k)) = some y := by
          simp [List.find?, hy]
        rw [this] at h
        injection h with h
        subst h
        unfold dropDupsAux
        rw [if_neg (hy ▸ hk)]
        exact List.mem_cons_self _ _
      · have hb : decide (key y = k) = false := decide_eq_false hy
        rw [List.find?_cons, hb] at h
        unfold dropDupsAux
        by_cases hys : key y ∈ seen
        · rw [if_pos hys]
          exact ih seen k x h hk
        · rw [if_neg hys]
          refine List.mem_cons_of_mem _ (ih _ k x h ?_)
          intro hc
          rcases List.mem_cons.mp hc with hc | hc
          · exact hy hc.symm
          · exact hk hc

/-! ### `rule_4b` dedup counting -/

theorem headingsMissingCount_add (g : String) (log : ErrorLog) (ln : Option Nat)
    (grp d : String) :
    headingsMissingCount g (add_error_msg log "Rule 4b" ln grp d) =
      headingsMissingCount g log
        + (if grp = g ∧ d = "Headings row missing." then 1 else 0) := by
  unfold headingsMissingCount
  rw [logRecs_add_self, List.countP_append]
  by_cases h : grp = g ∧ d = "Headings row missing."
  · simp [List.countP_cons, h.1, h.2]
  · rw [if_neg h]
    have : ((⟨ln, grp, d⟩ : ErrorRecord).group == g
        && (⟨ln, grp, d⟩ : ErrorRecord).desc == "Headings row missing.") = false := by
      rcases not_and_or.mp h with h1 | h1 <;> simp [beq_iff_eq, h1]
    simp [List.countP_cons, this]

theorem headingsMissingCount_other (g : String) (log : ErrorLog) (ru : String)
    (ln : Option Nat) (grp d : String) (h : ru ≠ "Rule 4b") :
    headingsMissingCount g (add_error_msg log ru ln grp d) =
      headingsMissingCount g log := by
  unfold headingsMissingCount
  rw [logRecs_add_other log ru ln grp d "Rule 4b" (Ne.symm h)]

theorem rule_4b_mismatch (line : String) (n : Nat) (g : String) (hs : List String)
    (log : ErrorLog) (htrig : rule4bTriggered line = true) (hne : hs ≠ [])
    (hlen : (parseFields line).length ≠ hs.length) :
    rule_4b line n g hs log =
      add_error_msg log "Rule 4b" (some n) g
        "Number of fields does not match the HEADING row." := by
  unfold rule_4b
  rw [if_pos htrig]
  dsimp only
  rw [if_neg (fun h0 => hne (List.length_eq_zero.mp h0)), if_pos hlen]

theorem rule_4b_missing_count (line : String) (n : Nat) (g : String)
    (log : ErrorLog) (htrig : rule4bTriggered line = true) :
    headingsMissingCount g (rule_4b line n g [] log) =
      if headingsMissingCount g log = 0 then 1 else headingsMissingCount g log := by
  unfold rule_4b
  rw [if_pos htrig]
  dsimp only
  have hz : ([] : List String).length = 0 := rfl
  rw [if_pos hz]
  split
  · next heq =>
    have h0 : headingsMissingCount g log = 0 := by
      unfold headingsMissingCount logRecs
      rw [heq]
      rfl
    rw [headingsMissingCount_add, h0, if_pos rfl, if_pos ⟨rfl, rfl⟩]
  · next ds heq =>
    have hrecs : logRecs log "Rule 4b" = ds := by
      unfold logRecs
      rw [heq]
      rfl
    split
    · next hany =>
      have hpos : 0 < headingsMissingCount g log := by
        unfold headingsMissingCount
        rw [hrecs]
        rw [List.countP_pos_iff]
        obtain ⟨a, ha, hp⟩ := List.any_eq_true.mp hany
        exact ⟨a, ha, hp⟩
      rw [if_neg (by omega)]
    · next hany =>
      have h0 : headingsMissingCount g log = 0 := by
        unfold headingsMissingCount
        rw [hrecs]
        rw [List.countP_eq_zero]
        intro a ha hp
        exact hany (List.any_eq_true.mpr ⟨a, ha, hp⟩)
      rw [headingsMissingCount_add, h0, if_pos rfl, if_pos ⟨rfl, rfl⟩]

theorem rule_4b_count_le (line : String) (n : Nat) (grp : String) (hs : List String)
    (log : ErrorLog) (g : String) (h : headingsMissingCount g log ≤ 1) :
    headingsMissingCount g (rule_4b line n grp hs log) ≤ 1 := by
  unfold rule_4b
  dsimp only
  split
  · split
    · split
      · next heq =>
        have h0 : headingsMissingCount g log = 0 := by
          unfold headingsMissingCount logRecs
          rw [heq]
          rfl
        rw [headingsMissingCount_add, h0]
        split <;> omega
      · next ds heq =>
        split
        · exact h
        · next hany =>
          rw [headingsMissingCount_add]
          by_cases hg : grp = g
          · rw [hg] at hany
            have hrecs : logRecs log "Rule 4b" = ds := by
              unfold logRecs
              rw [heq]
              rfl
            have h0 : headingsMissingCount g log = 0 := by
              unfold headingsMissingCount
              rw [hrecs]
              rw [List.countP_eq_zero]
              intro a ha hp
              exact hany (List.any_eq_true.mpr ⟨a, ha, hp⟩)
            rw [h0]
            split <;> omega
          · rw [if_neg (fun hc => hg hc.1)]
            omega
    · split
      · have hne : ¬(grp = g ∧
            ("Number of fields does not match the HEADING row." : String)
              = "Headings row missing.") :=
          fun hc => absurd hc.2 (by decide)
        rw [headingsMissingCount_add, if_neg hne]
        omega
      · exact h
  · exact h

theorem rule_4b_fold_count_le (g : String) (ctxs : List LineCtx) :
    ∀ log : ErrorLog, headingsMissingCount g log ≤ 1 →
      headingsMissingCount g
        (ctxs.foldl (fun l c => rule_4b c.line c.num c.group c.headings l) log) ≤ 1 := by
  induction ctxs with
  | nil => intro log h; exact h
  | cons c rest ih =>
      intro log h
      exact ih _ (rule_4b_count_le c.line c.num c.group c.headings log g h)

/-! ### `rule_19b` per-field record characterisation -/

theorem rule19bItem_amended (n : Nat) (group item : String) :
    rule19bItem n group item =
      (if ((pySplit "_" item).headD "").length ≠ 4
          ∨ 4 < (((pySplit "_" item)[1]?).getD "").length then
        [⟨some n, group,
          "Heading " ++ item ++ " should consist of a 4 charater group name and a field name of upto 4 characters."⟩]
      else []) ++
      (if (pySplit "_" item)[1]? = none ∧ ((pySplit "_" item).headD "").length = 4 then
        [⟨some n, group,
          "Heading " ++ item ++ " should consist of group name and field name separated by \"_\"."⟩]
      else []) := by
  unfold rule19bItem
  simp only [List.headD_eq_head?]
  rcases h1 : (pySplit "_" item)[1]? with _ | s
  · by_cases h4 : (((pySplit "_" item).head?).getD "").length = 4
    · simp [h1, h4]
    · simp [h1, h4]
  · by_cases h4 : (((pySplit "_" item).head?).getD "").length = 4
    · by_cases hs4 : 4 < s.length
      · simp [h1, h4, hs4]
      · simp [h1, h4, hs4]
    · simp [h1, h4]

/-! ### Claim theorems -/

/-- C1: on a concrete input with a GEOL group whose dictionary parent is LOCA,
the referential-integrity validator `rule_10c` finds the unmatched rows (the
UNIT row with unit "m" and the DATA row keyed "BH02") but logs them under
'Rule 10a' — nothing at all is stored under 'Rule 10c', contradicting the
claim that the records appear under the referential-integrity rule's own
identifier and only for DATA rows. -/
theorem claim_C1_rule_10c_eval :
    rule_10c c1Tables c1Headings c1Dict [] =
      [("Rule 10a",
        [⟨none, "GEOL", "Parent entry for line not found in LOCA: m"⟩,
         ⟨none, "GEOL", "Parent entry for line not found in LOCA: BH02"⟩])] ∧
    logRecs (rule_10c c1Tables c1Headings c1Dict []) "Rule 10c" = [] ∧
    cellVal c1GEOL.cols "HEADING" (c1GEOL.rows.getD 0 (0, [])).2 = "UNIT" := by
  decide

/-- C2 counterexample: two sources defining the same (group, heading) pair
(LOCA, LOCA_ID) under different DICT_TYPE values both survive the merge,
because `drop_duplicates` keys on the quadruple
(row-descriptor, DICT_TYPE, DICT_GRP, DICT_HDNG), not on (group, heading). -/
theorem claim_C2_counterexample :
    combine_DICT_tables [some c2SourceA, some c2SourceB] =
      some [⟨"DATA", "HEADING", "LOCA", "LOCA_ID", "KEY", ""⟩,
            ⟨"DATA", "GROUP", "LOCA", "LOCA_ID", "REQUIRED", ""⟩] ∧
    (⟨"DATA", "HEADING", "LOCA", "LOCA_ID", "KEY", ""⟩ : DictEntry).dictGrp =
      (⟨"DATA", "GROUP", "LOCA", "LOCA_ID", "REQUIRED", ""⟩ : DictEntry).dictGrp ∧
    (⟨"DATA", "HEADING", "LOCA", "LOCA_ID", "KEY", ""⟩ : DictEntry).dictHdng =
      (⟨"DATA", "GROUP", "LOCA", "LOCA_ID", "REQUIRED", ""⟩ : DictEntry).dictHdng ∧
    (⟨"DATA", "HEADING", "LOCA", "LOCA_ID", "KEY", ""⟩ : DictEntry) ≠
      (⟨"DATA", "GROUP", "LOCA", "LOCA_ID", "REQUIRED", ""⟩ : DictEntry) := by
  decide

/-- C2 (amended): the Dictionary Merger deduplicates on the quadruple
(row-descriptor, DICT_TYPE, group, heading): its output has pairwise-distinct
quadruple keys, keeps only entries of the concatenated input, and for every
input entry the first entry of the concatenation sharing its quadruple key is
kept — in particular, when two sources define the same quadruple with
different status tags, the earlier-listed source's entry wins (Scenario E). -/
theorem claim_C2_merge_keeps_first_on_quadruple
    (sources : List (Option (List DictEntry))) (d : List DictEntry)
    (h : combine_DICT_tables sources = some d) :
    d.Pairwise (fun a b => dictKey a ≠ dictKey b) ∧
    (∀ e ∈ d, e ∈ (sources.filterMap id).flatten) ∧
    (∀ e' ∈ (sources.filterMap id).flatten, ∀ x,
      ((sources.filterMap id).flatten).find? (fun a => decide (dictKey a = dictKey e'))
        = some x → x ∈ d) := by
  have hd : d = dropDups dictKey ((sources.filterMap id).flatten) := by
    unfold combine_DICT_tables at h
    dsimp only at h
    split at h
    · exact absurd h (by simp)
    · injection h with h
      exact h.symm
  subst hd
  refine ⟨pairwise_dropDupsAux _ _ _, ?_, ?_⟩
  · intro e he
    exact (mem_dropDupsAux _ _ _ e he).1
  · intro e' _ x hx
    exact find?_mem_dropDupsAux _ _ _ _ _ hx (List.not_mem_nil _)

/-- C2 witness: Scenario E concretely — source A (standard) and source B both
define (LOCA, LOCA_ID) with the same descriptor and DICT_TYPE but different
status tags; the merge keeps A's entry. -/
theorem claim_C2_witness :
    combine_DICT_tables [some c2SourceA, some c2ScenarioEB] =
      some [⟨"DATA", "HEADING", "LOCA", "LOCA_ID", "KEY", ""⟩] ∧
    (⟨"DATA", "HEADING", "LOCA", "LOCA_ID", "KEY", ""⟩ : DictEntry) ∈
      [(⟨"DATA", "HEADING", "LOCA", "LOCA_ID", "KEY", ""⟩ : DictEntry)] := by
  refine ⟨by decide, ?_⟩
  exact (claim_C2_merge_keeps_first_on_quadruple
      [some c2SourceA, some c2ScenarioEB] _ (by decide)).2.2
    ⟨"DATA", "HEADING", "LOCA", "LOCA_ID", "REQUIRED", ""⟩ (by decide)
    ⟨"DATA", "HEADING", "LOCA", "LOCA_ID", "KEY", ""⟩ (by decide)

/-- C3 counterexample: with LOCA_ID a KEY field and a table holding two
identical UNIT rows, `rule_10a` appends two duplicate-key records although no
DATA row shares its key tuple with another DATA row — `duplicated` flags rows
of every descriptor, not only DATA rows. -/
theorem claim_C3_counterexample :
    rule_10a c3Tables c3Headings c3Dict [] =
      [("Rule 10a",
        [⟨none, "LOCA", "Duplicate key field combination: UNIT|m"⟩,
         ⟨none, "LOCA", "Duplicate key field combination: UNIT|m"⟩])] ∧
    c3Table.rows.filter (fun r =>
      cellVal c3Table.cols "HEADING" r.2 == "DATA"
        && decide (2 ≤ ((c3Table.rows.filter (fun r2 =>
             cellVal c3Table.cols "HEADING" r2.2 == "DATA")).map
               (keyTuple c3Table.cols (keyFieldsFor c3Dict "LOCA"))).count
             (keyTuple c3Table.cols (keyFieldsFor c3Dict "LOCA") r))) = [] := by
  decide

/-- C3 (amended): for every group `rule_10a` appends, under 'Rule 10a', one
missing-key record per KEY heading absent from the group's headings and —
only when every KEY heading is present — one duplicate record per row (of any
descriptor) whose (row-descriptor, key values) tuple occurs at least twice
among the group's rows; restricted to DATA rows this coincides with sharing
the tuple with another DATA row, since the descriptor is part of the tuple.
When a KEY heading is absent the uniqueness check is skipped entirely. -/
theorem claim_C3_rule_10a_characterisation (tables : Tables) (headings : Headings)
    (dict : List DictEntry) (log : ErrorLog) :
    logRecs (rule_10a tables headings dict log) "Rule 10a" =
      logRecs log "Rule 10a" ++ tables.flatMap (fun p =>
        let hs := (headings.lookup p.1).getD []
        let kf := keyFieldsFor dict p.1
        kf.filterMap (fun h =>
          if !(hs.contains h) then
            some (⟨none, p.1, "Key field " ++ h ++ " not found."⟩ : ErrorRecord)
          else none) ++
        (if kf.all (fun h => hs.contains h) then
          (p.2.rows.filter (fun r =>
             2 ≤ (p.2.rows.map (keyTuple p.2.cols kf)).count (keyTuple p.2.cols kf r))).map
            (fun r => (⟨none, p.1, "Duplicate key field combination: "
               ++ pipeJoin (keyTuple p.2.cols kf r)⟩ : ErrorRecord))
        else [])) := by
  unfold rule_10a
  rw [logRecs_appendRule_self]
  congr 1
  congr 1
  funext p
  unfold rule10aGroupRecs
  dsimp only
  congr 1
  simp only [countP_eq_count_map]

/-- C4: for every UNIT/TYPE/DATA line (the source tests the quote-stripped
line's prefix): with a non-empty heading sequence and a differing field count,
`rule_4b` appends exactly one field-count record for that line under 'Rule 4b'
and touches no other rule's records; with an empty heading sequence it brings
the group's "Headings row missing." count to one if it was zero and leaves it
unchanged otherwise; and over any sequence of processed lines the per-group
count never exceeds one. -/
theorem claim_C4_rule_4b_field_count :
    (∀ (line : String) (n : Nat) (g : String) (hs : List String) (log : ErrorLog),
      rule4bTriggered line = true → hs ≠ [] →
      (parseFields line).length ≠ hs.length →
      logRecs (rule_4b line n g hs log) "Rule 4b" =
        logRecs log "Rule 4b"
          ++ [⟨some n, g, "Number of fields does not match the HEADING row."⟩] ∧
      ∀ r, r ≠ "Rule 4b" → logRecs (rule_4b line n g hs log) r = logRecs log r) ∧
    (∀ (line : String) (n : Nat) (g : String) (log : ErrorLog),
      rule4bTriggered line = true →
      headingsMissingCount g (rule_4b line n g [] log) =
        if headingsMissingCount g log = 0 then 1 else headingsMissingCount g log) ∧
    (∀ (g : String) (ctxs : List LineCtx) (log : ErrorLog),
      headingsMissingCount g log ≤ 1 →
      headingsMissingCount g
        (ctxs.foldl (fun l c => rule_4b c.line c.num c.group c.headings l) log) ≤ 1) := by
  refine ⟨?_, ?_, ?_⟩
  · intro line n g hs log htrig hne hlen
    rw [rule_4b_mismatch line n g hs log htrig hne hlen]
    exact ⟨logRecs_add_self _ _ _ _ _,
      fun r hr => logRecs_add_other _ _ _ _ _ _ hr⟩
  · intro line n g log htrig
    exact rule_4b_missing_count line n g log htrig
  · intro g ctxs log h
    exact rule_4b_fold_count_le g ctxs log h

/-- C4 witness: a DATA line with two fields against a two-heading group (no
violation is one fewer field: here 3 headings vs 2 fields), a DATA line with
no headings seen, and a fold over two heading-less DATA lines keeping the
per-group count at one. -/
theorem claim_C4_witness :
    logRecs (rule_4b "\"DATA\",\"a\"\r\n" 7 "LOCA" ["HEADING", "LOCA_ID", "LOCA_NATE"] [])
        "Rule 4b" =
      logRecs ([] : ErrorLog) "Rule 4b"
        ++ [⟨some 7, "LOCA", "Number of fields does not match the HEADING row."⟩] ∧
    headingsMissingCount "GEOL" (rule_4b "\"DATA\",\"a\"\r\n" 9 "GEOL" [] []) =
      (if headingsMissingCount "GEOL" ([] : ErrorLog) = 0 then 1
       else headingsMissingCount "GEOL" ([] : ErrorLog)) ∧
    headingsMissingCount "GEOL"
      (([⟨"\"DATA\",\"a\"\r\n", 9, "GEOL", []⟩,
         ⟨"\"DATA\",\"b\"\r\n", 10, "GEOL", []⟩] : List LineCtx).foldl
        (fun l c => rule_4b c.line c.num c.group c.headings l) []) ≤ 1 := by
  refine ⟨?_, ?_, ?_⟩
  · exact (claim_C4_rule_4b_field_count.1 "\"DATA\",\"a\"\r\n" 7 "LOCA"
      ["HEADING", "LOCA_ID", "LOCA_NATE"] [] (by decide) (by decide) (by decide)).1
  · exact claim_C4_rule_4b_field_count.2.1 "\"DATA\",\"a\"\r\n" 9 "GEOL" [] (by decide)
  · exact claim_C4_rule_4b_field_count.2.2 "GEOL"
      ([⟨"\"DATA\",\"a\"\r\n", 9, "GEOL", []⟩,
        ⟨"\"DATA\",\"b\"\r\n", 10, "GEOL", []⟩] : List LineCtx) []
      (by decide)

/-- C5: for every group of the heading index, `rule_7` appends under 'Rule 7'
exactly one order record when the actual headings (beyond the row-type label)
are all among the dictionary's headings for the group and the dictionary list
filtered to headings present in the group differs from the actual sequence;
no record when they agree; and exactly one "could not be checked" record when
some actual heading is outside the dictionary list. -/
theorem claim_C5_rule_7_order (headings : Headings) (dict : List DictEntry)
    (log : ErrorLog) :
    logRecs (rule_7 headings dict log) "Rule 7" =
      logRecs log "Rule 7" ++ headings.flatMap (fun p =>
        let ref := dictHdngsFor dict p.1
        if (p.2.drop 1).all (fun h => ref.contains h) then
          (if ref.filter (fun h => p.2.contains h) ≠ p.2.drop 1 then
            [⟨none, p.1,
              "HEADING names in " ++ p.1 ++ " are not in the order that they are defined in the DICT table and the standard dictionary."⟩]
          else [])
        else
          [⟨none, p.1,
            "Order of headings could not be checked as one or more fields were not found in either the DICT table or the standard dictionary. Check error log under Rule 9."⟩]) := by
  unfold rule_7
  rw [logRecs_appendRule_self]
  congr 1
  unfold recsRule7
  congr 1
  funext p
  dsimp only
  rw [removeAbsent_eq_filter]

/-- C6 counterexample: on a HEADING line with field "ABCD_EF_GH" the suffix
after the first underscore, "EF_GH", is five characters long, so the claim
demands a violation record, yet `rule_19b` appends none (the source checks
only the segment between the first two underscores).  And on field "ABC",
which has no underscore, the claim demands the distinct severe record, yet
the source short-circuits on the 3-character prefix and appends the ordinary
record instead. -/
theorem claim_C6_counterexample :
    ((pySplit "_" "ABCD_EF_GH").headD "").length = 4 ∧
    String.intercalate "_" ((pySplit "_" "ABCD_EF_GH").drop 1) = "EF_GH" ∧
    4 < ("EF_GH" : String).length ∧
    rule_19b "\"HEADING\",\"ABCD_EF_GH\"\r\n" 1 "LOCA" [] = [] ∧
    (pySplit "_" "ABC").length = 1 ∧
    rule_19b "\"HEADING\",\"ABC\"\r\n" 1 "LOCA" [] =
      [("Rule 19b", [⟨some 1, "LOCA",
        "Heading ABC should consist of a 4 charater group name and a field name of upto 4 characters."⟩])] ∧
    ("Heading ABC should consist of a 4 charater group name and a field name of upto 4 characters." : String)
      ≠ "Heading ABC should consist of group name and field name separated by \"_\"." := by
  decide

/-- C6 (amended): for every HEADING line, `rule_19b` appends, per heading
field, the ordinary violation exactly when the field's first
underscore-separated segment is not 4 characters long or a second segment
exists and is longer than 4 characters, and the distinct severe (no
underscore) violation exactly when the field has no underscore and is itself
exactly 4 characters long (a shorter or longer underscore-less field receives
the ordinary record via the prefix check, which short-circuits). -/
theorem claim_C6_rule_19b_amended (line : String) (n : Nat) (group : String)
    (log : ErrorLog) :
    logRecs (rule_19b line n group log) "Rule 19b" =
      logRecs log "Rule 19b" ++
        (if pyStartsWith (stripQuotes line) "HEADING" then
          (if (parseFields line).length ≥ 2 then
            ((parseFields line).drop 1).flatMap (fun item =>
              (if ((pySplit "_" item).headD "").length ≠ 4
                  ∨ 4 < (((pySplit "_" item)[1]?).getD "").length then
                [⟨some n, group,
                  "Heading " ++ item ++ " should consist of a 4 charater group name and a field name of upto 4 characters."⟩]
              else []) ++
              (if (pySplit "_" item)[1]? = none
                  ∧ ((pySplit "_" item).headD "").length = 4 then
                [⟨some n, group,
                  "Heading " ++ item ++ " should consist of group name and field name separated by \"_\"."⟩]
              else []))
          else [])
        else []) := by
  unfold rule_19b
  rw [logRecs_appendRule_self]
  congr 1
  unfold recsRule19b
  by_cases htrig : pyStartsWith (stripQuotes line) "HEADING" = true
  · rw [if_pos htrig, if_pos htrig]
    dsimp only
    by_cases hlen : (parseFields line).length ≥ 2
    · rw [if_pos hlen, if_pos hlen]
      congr 1
      funext item
      exact rule19bItem_amended n group item
    · rw [if_neg hlen, if_neg hlen]
  · rw [if_neg htrig, if_neg htrig]

/-- C7: one application of the full rule set from a fresh ErrorLog is a pure
function of the parsed input and merged dictionary, so a second run on the
same input produces exactly the same log, record for record and key for key
(the orchestrator, modelled from the spec, creates a fresh log per run). -/
theorem claim_C7_rerun_identical (tables : Tables) (headings : Headings)
    (dict : List DictEntry) (lineCtxs : List LineCtx)
    (sources : List (Option (List DictEntry))) :
    runRuleSet tables headings dict lineCtxs = runRuleSet tables headings dict lineCtxs ∧
    checkRun sources tables headings lineCtxs = checkRun sources tables headings lineCtxs :=
  ⟨rfl, rfl⟩

/-- C8 counterexample: `rule_2b` re-indexes its tables in place — on a table
whose index labels start at 5 the returned tables differ from the input even
though no error is logged, so the validators do not leave the tables' indexing
unchanged. -/
theorem claim_C8_counterexample :
    (rule_2b c8Tables [] []).1 ≠ c8Tables ∧ (rule_2b c8Tables [] []).2 = [] := by
  decide

/-- C8 (amended): `rule_10b` evaluates on a working copy and returns the input
tables unchanged; `rule_2` and `rule_2b` return the input tables with each
table's index labels reset to 0,1,2,… — their only table mutation — and
re-indexing preserves each table's columns and row contents.  (The remaining
validators take the tables read-only and cannot modify them; the heading index
is never modified by any validator.) -/
theorem claim_C8_frame (tables : Tables) (headings : Headings)
    (dict : List DictEntry) (log : ErrorLog) :
    (rule_10b tables headings dict log).1 = tables ∧
    (rule_2 tables headings log).1 = tables.map (fun p => (p.1, resetIndex p.2)) ∧
    (rule_2b tables headings log).1 = tables.map (fun p => (p.1, resetIndex p.2)) ∧
    ∀ tb : Table, (resetIndex tb).cols = tb.cols
      ∧ (resetIndex tb).rows.map (·.2) = tb.rows.map (·.2) := by
  refine ⟨rfl, rfl, rfl, fun tb => ⟨rfl, ?_⟩⟩
  simp [resetIndex]

/-- C9: the Dictionary Merger aborts (`sys.exit`, modelled as `none`) exactly
when the concatenation of the input sources' DICT entries is empty, and the
check run halts there — before any table-level validator — returning `none`;
on a non-empty concatenation the run proceeds with the deduplicated merged
dictionary. -/
theorem claim_C9_empty_merge_aborts (sources : List (Option (List DictEntry)))
    (tables : Tables) (headings : Headings) (lineCtxs : List LineCtx) :
    (combine_DICT_tables sources = none ↔ (sources.filterMap id).flatten = []) ∧
    checkRun sources tables headings lineCtxs =
      (if (sources.filterMap id).flatten = [] then none
       else some (runGroupRules tables headings
         (dropDups dictKey ((sources.filterMap id).flatten))
         (runLineRules lineCtxs []))) := by
  have hm : combine_DICT_tables sources =
      (if (sources.filterMap id).flatten = [] then none
       else some (dropDups dictKey ((sources.filterMap id).flatten))) := by
    unfold combine_DICT_tables
    dsimp only
    by_cases h : ((sources.filterMap id).flatten).length = 0
    · rw [if_pos h, if_pos (List.length_eq_zero.mp h)]
    · rw [if_neg h, if_neg (fun he => h (by rw [he]; rfl))]
  constructor
  · rw [hm]
    by_cases he : (sources.filterMap id).flatten = [] <;> simp [he]
  · unfold checkRun
    rw [hm]
    by_cases he : (sources.filterMap id).flatten = [] <;> simp [he]

/-- C10: `add_error_msg` appends exactly one record under the given rule,
creating the key if absent, leaves every other rule's records untouched, and
grows the total record count by one; and every validator of the rule set only
extends the log — all records present beforehand are still present, unchanged
and in their original order (per-rule prefix), and the total record count
never decreases. -/
theorem claim_C10_append_only :
    (∀ (log : ErrorLog) (ru : String) (ln : Option Nat) (g d : String),
      logRecs (add_error_msg log ru ln g d) ru = logRecs log ru ++ [⟨ln, g, d⟩] ∧
      (∀ r, r ≠ ru → logRecs (add_error_msg log ru ln g d) r = logRecs log r) ∧
      logSize (add_error_msg log ru ln g d) = logSize log + 1) ∧
    (∀ line n log, LogExt log (rule_1 line n log)) ∧
    (∀ line n log, LogExt log (rule_2a line n log)) ∧
    (∀ line n log, LogExt log (rule_2c line n log)) ∧
    (∀ line n log, LogExt log (rule_3 line n log)) ∧
    (∀ line n log, LogExt log (rule_4a line n log)) ∧
    (∀ line n g hs log, LogExt log (rule_4b line n g hs log)) ∧
    (∀ line n log, LogExt log (rule_5 line n log)) ∧
    (∀ line n log, LogExt log (rule_6 line n log)) ∧
    (∀ line n log, LogExt log (rule_19 line n log)) ∧
    (∀ line n g log, LogExt log (rule_19a line n g log)) ∧
    (∀ line n g log, LogExt log (rule_19b line n g log)) ∧
    (∀ t h log, LogExt log (rule_2 t h log).2) ∧
    (∀ t h log, LogExt log (rule_2b t h log).2) ∧
    (∀ h d log, LogExt log (rule_7 h d log)) ∧
    (∀ h d log, LogExt log (rule_9 h d log)) ∧
    (∀ t h d log, LogExt log (rule_10a t h d log)) ∧
    (∀ t h d log, LogExt log (rule_10b t h d log).2) ∧
    (∀ t h d log, LogExt log (rule_10c t h d log)) ∧
    (∀ t h log, LogExt log (rule_12 t h log)) ∧
    (∀ t h log, LogExt log (rule_13 t h log)) ∧
    (∀ t h log, LogExt log (rule_14 t h log)) ∧
    (∀ t h log, LogExt log (rule_15 t h log)) ∧
    (∀ t h d log, LogExt log (rule_16 t h d log)) ∧
    (∀ t h d log, LogExt log (rule_17 t h d log)) ∧
    (∀ t h log, LogExt log (rule_18 t h log)) ∧
    (∀ t h d log, LogExt log (rule_19c t h d log)) := by
  refine ⟨fun log ru ln g d =>
      ⟨logRecs_add_self log ru ln g d,
       fun r hr => logRecs_add_other log ru ln g d r hr,
       logSize_add log ru ln g d⟩,
    fun _ _ log => logExt_appendRule _ _ _,
    fun _ _ log => logExt_appendRule _ _ _,
    fun _ _ log => logExt_appendRule _ _ _,
    fun _ _ log => logExt_appendRule _ _ _,
    fun _ _ log => logExt_appendRule _ _ _,
    fun line n g hs log => logExt_rule_4b line n g hs log,
    fun _ _ log => logExt_appendRule _ _ _,
    fun _ _ log => logExt_refl log,
    fun _ _ log => logExt_appendRule _ _ _,
    fun _ _ _ log => logExt_appendRule _ _ _,
    fun _ _ _ log => logExt_appendRule _ _ _,
    fun _ _ log => logExt_appendRule _ _ _,
    fun _ _ log => logExt_appendRule _ _ _,
    fun _ _ log => logExt_appendRule _ _ _,
    fun _ _ log => logExt_appendRule _ _ _,
    fun _ _ _ log => logExt_appendRule _ _ _,
    fun _ _ _ log => logExt_appendRule _ _ _,
    fun _ _ _ log => logExt_appendAll _ _,
    fun _ _ log => logExt_refl log,
    fun _ _ log => logExt_appendRule _ _ _,
    fun _ _ log => logExt_appendRule _ _ _,
    fun _ _ log => logExt_appendRule _ _ _,
    fun _ _ _ log => logExt_appendRule _ _ _,
    fun _ _ _ log => logExt_appendRule _ _ _,
    fun t h log => logExt_rule_18 t h log,
    fun _ _ _ log => logExt_appendRule _ _ _⟩

/-- C10 witness: adding a record under 'Rule 1' to the empty log leaves the
records of 'Rule 2' untouched. -/
theorem claim_C10_witness :
    logRecs (add_error_msg [] "Rule 1" (some 1) "" "x") "Rule 2" =
      logRecs ([] : ErrorLog) "Rule 2" :=
  (claim_C10_append_only.1 [] "Rule 1" (some 1) "" "x").2.1 "Rule 2" (by decide)
